import Mathlib

/-!
Verification development for the functional core of the streamlit unit
convertor repository (src/conventor.py): the unit registry, the conversion
engine `convert_units`, the credential store (`register_user`,
`authenticate_user`, `load_users`), and the feedback store (`load_feedback`,
the filter and sort of `review_section`).

Embedding conventions:
  - Python floats are modelled by exact rationals; all registry constants
    are decimal literals, so their rational values are exact.
  - File input and output is modelled by explicit state passing: functions
    that read the persisted store take it as an argument, functions that
    write it return the new store. The backing file itself is modelled by
    `StoredFile`, distinguishing a missing file, a file with invalid JSON,
    and a successfully parsed value, which is exactly the case split the
    try/except blocks of the source perform.
  - A Python function that can either return a value, return None, or let
    a KeyError escape is modelled by the three-constructor type
    `ConvResult`.
  - The SHA-256 hex digest used by hash_password is an external library
    collaborator (hashlib); the store logic is parametric in the digest
    function, which is all the verified properties depend on.
  - Python round(x, 6) is modelled as rounding to the nearest multiple of
    10⁻⁶ (half up); no verified statement depends on the tie rule.
-/

namespace Conventor

/-- Outcome of one call to convert_units: a returned number, a returned
None, or an uncaught KeyError escaping the function. -/
inductive ConvResult where
  | ok (value : ℚ)
  | none
  | keyError
deriving DecidableEq

/-- Factor table of the Energy category, from src/conventor.py line 18. -/
def energy_factors : List (String × ℚ) :=
  [("J", 1), ("eV", 1.60218e-19), ("Ha", 4.35974e-18)]

/-- Factor table of the Length category, line 19 of the source. The third
unit name is the exact byte sequence appearing in the file. -/
def length_factors : List (String × ℚ) :=
  [("m", 1), ("nm", 1e-9), ("√Ö", 1e-10), ("feet", 0.3048)]

/-- Factor table of the Time category, line 20 of the source. -/
def time_factors : List (String × ℚ) :=
  [("s", 1), ("fs", 1e-15), ("day", 86400)]

/-- Factor table of the Frequency category, line 21 of the source. -/
def frequency_factors : List (String × ℚ) :=
  [("Hz", 1), ("THz", 1e12)]

/-- Factor table of the Mass category, line 22 of the source. -/
def mass_factors : List (String × ℚ) :=
  [("kg", 1), ("amu", 1.66054e-27), ("pounds", 0.453592)]

/-- Factor table of the Speed category, line 23 of the source. -/
def speed_factors : List (String × ℚ) :=
  [("m/s", 1), ("mph", 0.44704), ("km/h", 0.277778)]

/-- Lookup of a linear category in the unit_conversions dictionary
(lines 17 to 23 of the source). Temperature is the one key of
unit_conversions that holds function pairs rather than factors, and the
code only reaches the factor lookup when unit_type is not Temperature,
so it is kept out of this table. -/
def unit_conversions_linear (unit_type : String) : Option (List (String × ℚ)) :=
  if unit_type = "Energy" then some energy_factors
  else if unit_type = "Length" then some length_factors
  else if unit_type = "Time" then some time_factors
  else if unit_type = "Frequency" then some frequency_factors
  else if unit_type = "Mass" then some mass_factors
  else if unit_type = "Speed" then some speed_factors
  else Option.none

/-- A Temperature unit carries a pair of conversion functions, to and from
the Celsius base representation (lines 24 to 28 of the source). -/
structure TempUnit where
  to_base : ℚ → ℚ
  from_base : ℚ → ℚ

/-- Temperature units from lines 25 to 27 of the source. -/
def temperature_units (unit : String) : Option TempUnit :=
  if unit = "C" then some ⟨fun x => x, fun x => x⟩
  else if unit = "F" then some ⟨fun x => (x - 32) * 5 / 9, fun x => x * 9 / 5 + 32⟩
  else if unit = "K" then some ⟨fun x => x - 273.15, fun x => x + 273.15⟩
  else Option.none

/-- Python round(result, 6): round to the nearest multiple of 10⁻⁶. -/
def round6 (x : ℚ) : ℚ :=
  ((⌊x * 1000000 + 1 / 2⌋ : ℤ) : ℚ) / 1000000

/-- The conversion engine, src/conventor.py lines 192 to 204. In the
Temperature branch a KeyError from looking up either unit is caught and
turned into None. In the linear branch the lookup unit_conversions of
unit_type is outside any try block, so an unknown category lets the
KeyError escape; a known category with an unknown unit falls through to
return None. The returned value is value * factor(to) / factor(from),
rounded only in the Temperature branch. -/
def convert_units (value : ℚ) (from_unit to_unit unit_type : String) : ConvResult :=
  if unit_type = "Temperature" then
    match temperature_units from_unit, temperature_units to_unit with
    | some fc, some tc => ConvResult.ok (round6 (tc.from_base (fc.to_base value)))
    | _, _ => ConvResult.none
  else
    match unit_conversions_linear unit_type with
    | Option.none => ConvResult.keyError
    | some factors =>
      match factors.lookup from_unit, factors.lookup to_unit with
      | some ff, some tf => ConvResult.ok (value * tf / ff)
      | _, _ => ConvResult.none

/-- One entry of the users store: the hex digest of the password and the
role string, as written by register_user (line 141 of the source). -/
structure UserRec where
  password : String
  role : String
deriving DecidableEq

/-- The users store is a JSON object mapping username to its record;
modelled as an association list in insertion order, since Python dicts
preserve insertion order. -/
abbrev Users := List (String × UserRec)

/-- Backing state of a persisted JSON file: missing on disk, present but
not valid JSON, or parsed to a value. These are exactly the cases the
try/except FileNotFoundError/JSONDecodeError blocks of the source
distinguish. -/
inductive StoredFile (α : Type) where
  | missing
  | invalidJson
  | parsed (val : α)

/-- load_users, src/conventor.py lines 123 to 128: a missing file or a
JSON decode error yields the empty store. -/
def load_users (file : StoredFile Users) : Users :=
  match file with
  | StoredFile.parsed users => users
  | StoredFile.missing => []
  | StoredFile.invalidJson => []

/-- register_user, src/conventor.py lines 137 to 143, with the store made
an explicit argument (the source reads it with load_users) and the
persisted new store returned (the source writes it with save_users). The
digest function of hash_password is passed as a parameter. A fresh key
assignment on a Python dict appends the entry at the end. -/
def register_user (hash_password : String → String) (users : Users)
    (username password : String) : Bool × Users :=
  match users.lookup username with
  | some _ => (false, users)
  | Option.none =>
      (true, users ++ [(username, ⟨hash_password password, "user"⟩)])

/-- authenticate_user, src/conventor.py lines 145 to 150: look the user
up, compare the stored digest with the digest of the supplied password.
The record stored for a user is never the empty dict, so the Python
truthiness test on it is exactly the test that the lookup succeeded. -/
def authenticate_user (hash_password : String → String) (users : Users)
    (username password : String) : Option UserRec :=
  match users.lookup username with
  | some user =>
      if user.password = hash_password password then some user else Option.none
  | Option.none => Option.none

/-- Possible outcomes of the REGISTER button of login_section. -/
inductive RegisterOutcome where
  | registrationSuccessful
  | usernameAlreadyExists
  | passwordTooShort
deriving DecidableEq

/-- The REGISTER branch of login_section, src/conventor.py lines 224 to
231: the presentation layer rejects passwords shorter than 8 characters
before calling register_user; otherwise register_user decides between
success and the already-exists error. Returns the outcome and the store
after the interaction. -/
def login_register (hash_password : String → String) (users : Users)
    (username password : String) : RegisterOutcome × Users :=
  if 8 ≤ password.length then
    match register_user hash_password users username password with
    | (true, users) => (RegisterOutcome.registrationSuccessful, users)
    | (false, users) => (RegisterOutcome.usernameAlreadyExists, users)
  else (RegisterOutcome.passwordTooShort, users)

/-- One feedback record as persisted by save_feedback (lines 167 to 175
of the source). The sentiment pair is produced by the external TextBlob
collaborator and carried opaquely; visible is optional because records
from an older schema may lack the flag, which load_feedback backfills
and review_section reads with a get defaulting to true. -/
structure FeedbackRecord where
  id : String
  username : String
  feedback : String
  rating : Int
  polarity : ℚ
  subjectivity : ℚ
  timestamp : String
  visible : Option Bool
deriving DecidableEq

/-- load_feedback, src/conventor.py lines 180 to 189: a missing file or a
JSON decode error yields the empty list; a record without the visible key
gets visible set to true. -/
def load_feedback (file : StoredFile (List FeedbackRecord)) : List FeedbackRecord :=
  match file with
  | StoredFile.parsed feedbacks =>
      feedbacks.map (fun f =>
        if f.visible = Option.none then { f with visible := some true } else f)
  | StoredFile.missing => []
  | StoredFile.invalidJson => []

/-- Visibility test of review_section, line 270 of the source:
f.get of the visible key, defaulting to true. -/
def feedback_visible (f : FeedbackRecord) : Bool :=
  f.visible.getD true

/-- The filter of review_section, src/conventor.py lines 268 to 270:
keep records whose rating is at least min_rating and that are visible. -/
def review_filter (min_rating : Int) (feedbacks : List FeedbackRecord) :
    List FeedbackRecord :=
  feedbacks.filter (fun f => decide (min_rating ≤ f.rating) && feedback_visible f)

/-- Descending-rating relation used to model the Highest Rating sort of
review_section (line 273 of the source): a comes no later than b when the
rating of a is at least the rating of b. -/
def ratingGE (a b : FeedbackRecord) : Prop :=
  b.rating ≤ a.rating

instance : DecidableRel ratingGE :=
  fun a b => inferInstanceAs (Decidable (b.rating ≤ a.rating))

instance : IsTotal FeedbackRecord ratingGE :=
  ⟨fun a b => le_total b.rating a.rating⟩

instance : IsTrans FeedbackRecord ratingGE :=
  ⟨fun _ _ _ hab hbc => le_trans hbc hab⟩

/-- The Highest Rating branch of review_section, src/conventor.py lines
268 to 273: filter, then sort by rating descending. Python list.sort is a
stable sort; over the total preorder ratingGE every stable sort computes
the same list, so it is modelled by the stable insertion sort. -/
def review_highest_rating (min_rating : Int) (feedbacks : List FeedbackRecord) :
    List FeedbackRecord :=
  (review_filter min_rating feedbacks).insertionSort ratingGE

/-- Temperature is not a key of the linear factor table. -/
theorem lin_temperature_none : unit_conversions_linear "Temperature" = Option.none := by
  simp [unit_conversions_linear]

/-- A successful association list lookup comes from a member of the list. -/
theorem lookup_mem {l : List (String × ℚ)} {k : String} {v : ℚ}
    (h : l.lookup k = some v) : (k, v) ∈ l := by
  induction l with
  | nil => simp [List.lookup] at h
  | cons p l ih =>
    rw [List.lookup] at h
    rcases hk : (k == p.1) with _ | _
    · rw [hk] at h
      exact List.mem_cons_of_mem _ (ih h)
    · rw [hk] at h
      obtain rfl : p.2 = v := by injection h
      obtain rfl : k = p.1 := eq_of_beq hk
      exact List.mem_cons_self _ _

/-- Every factor in the registry is positive. -/
theorem factors_pos {ut : String} {facs : List (String × ℚ)}
    (h : unit_conversions_linear ut = some facs) : ∀ p ∈ facs, 0 < p.2 := by
  unfold unit_conversions_linear at h
  split_ifs at h <;>
    first
      | exact Option.noConfusion h
      | (injection h with h; subst h; intro p hp;
         simp only [energy_factors, length_factors, time_factors, frequency_factors,
           mass_factors, speed_factors] at hp;
         fin_cases hp <;> norm_num)

/-- In a linear category whose two units are both in the factor table,
convert_units returns value times the factor of the target unit divided
by the factor of the source unit, with no rounding. -/
theorem convert_units_linear_eq (value : ℚ) (fu tu ut : String)
    (facs : List (String × ℚ)) (ff tf : ℚ)
    (hc : unit_conversions_linear ut = some facs)
    (hf : facs.lookup fu = some ff) (ht : facs.lookup tu = some tf) :
    convert_units value fu tu ut = ConvResult.ok (value * tf / ff) := by
  have hne : ut ≠ "Temperature" := by
    intro hT
    rw [hT, lin_temperature_none] at hc
    exact Option.noConfusion hc
  simp [convert_units, hne, hc, hf, ht]

/-- Rounding to six decimal digits is idempotent. -/
theorem round6_idem (x : ℚ) : round6 (round6 x) = round6 x := by
  unfold round6
  rw [div_mul_cancel₀ _ (by norm_num : (1000000 : ℚ) ≠ 0), Int.floor_int_add]
  norm_num

/-- C1: the spec expects convert(100, "J", "eV", "Energy") to be about
6.2415e20, the physically correct number of electronvolts in 100 joules.
The code instead multiplies by the eV factor and divides by the J factor,
returning 1.60218e-17, which is not within even a 0.1 percent relative
tolerance of the claimed value: the linear conversion formula of the code
is inverted relative to the physical meaning of its own factor table. -/
theorem claim_c1_code_divergence :
    convert_units 100 "J" "eV" "Energy" = ConvResult.ok (1.60218e-17 : ℚ) ∧
    ¬ |(1.60218e-17 : ℚ) - 6.2415e20| ≤ (1 / 1000) * 6.2415e20 := by
  constructor
  · simp [convert_units, unit_conversions_linear, energy_factors, List.lookup]
    norm_num
  · rw [abs_sub_comm, abs_of_nonneg (by norm_num)]
    norm_num

/-- C2, counterexample: a category absent from the registry does not give
a tagged failure value; the lookup of the category raises a KeyError that
escapes convert_units. -/
theorem claim_c2_counterexample :
    convert_units 1 "C" "F" "Volume" = ConvResult.keyError := by
  rfl

/-- C2, amended: convert_units raises an uncaught KeyError exactly when
the category is neither Temperature nor in the linear registry; when the
category is known, an unknown source or target unit makes it return the
failure value None (a single value, not distinguishing UnknownUnit from
UnknownCategory), and no exception escapes. -/
theorem claim_c2_amended (value : ℚ) (fu tu ut : String) :
    (convert_units value fu tu ut = ConvResult.keyError ↔
      (ut ≠ "Temperature" ∧ unit_conversions_linear ut = Option.none)) ∧
    (∀ facs, unit_conversions_linear ut = some facs →
      (facs.lookup fu = Option.none ∨ facs.lookup tu = Option.none) →
      convert_units value fu tu ut = ConvResult.none) ∧
    (ut = "Temperature" →
      (temperature_units fu = Option.none ∨ temperature_units tu = Option.none) →
      convert_units value fu tu ut = ConvResult.none) := by
  refine ⟨?_, ?_, ?_⟩
  · by_cases hT : ut = "Temperature"
    · subst hT
      rcases hf : temperature_units fu with _ | fc <;>
        rcases hg : temperature_units tu with _ | tc <;>
          simp [convert_units, hf, hg, lin_temperature_none]
    · rcases hc : unit_conversions_linear ut with _ | facs
      · simp [convert_units, hT, hc]
      · rcases hlf : facs.lookup fu with _ | ff <;>
          rcases hlt : facs.lookup tu with _ | tf <;>
            simp [convert_units, hT, hc, hlf, hlt]
  · intro facs hc hmiss
    have hT : ut ≠ "Temperature" := by
      intro h
      rw [h, lin_temperature_none] at hc
      exact Option.noConfusion hc
    rcases hmiss with hm | hm
    · simp [convert_units, hT, hc, hm]
    · rcases hlf : facs.lookup fu with _ | ff <;>
        simp [convert_units, hT, hc, hm, hlf]
  · intro hT hmiss
    subst hT
    rcases hmiss with hm | hm
    · simp [convert_units, hm]
    · rcases hf : temperature_units fu with _ | fc <;>
        simp [convert_units, hm, hf]

/-- Witness for C2 amended: an unknown target unit in the known Energy
category returns the failure value None. -/
theorem claim_c2_witness :
    convert_units 1 "J" "q" "Energy" = ConvResult.none :=
  (claim_c2_amended 1 "J" "q" "Energy").2.1 energy_factors rfl (Or.inr rfl)

/-- C3, counterexample: a successful linear conversion is not rounded to
six decimal digits; converting 1 m to nm returns 1e-9 unchanged, which is
not a multiple of 10⁻⁶. -/
theorem claim_c3_counterexample :
    convert_units 1 "m" "nm" "Length" = ConvResult.ok (1e-9 : ℚ) ∧
    round6 (1e-9 : ℚ) ≠ (1e-9 : ℚ) := by
  constructor
  · simp [convert_units, unit_conversions_linear, length_factors, List.lookup]
  · norm_num [round6]

/-- C3, amended: only the Temperature branch rounds; every successful
Temperature conversion returns a value that is fixed by rounding to six
decimal digits, while linear results are returned unrounded. -/
theorem claim_c3_amended (value : ℚ) (fu tu : String) (r : ℚ)
    (h : convert_units value fu tu "Temperature" = ConvResult.ok r) :
    round6 r = r := by
  rcases hf : temperature_units fu with _ | fc <;>
    rcases hg : temperature_units tu with _ | tc <;>
      simp [convert_units, hf, hg] at h
  rw [← h]
  exact round6_idem _

/-- Witness for C3 amended: converting 0 C to F returns 32, which rounding
to six digits leaves fixed. -/
theorem claim_c3_witness :
    convert_units 0 "C" "F" "Temperature" = ConvResult.ok 32 ∧ round6 (32 : ℚ) = 32 := by
  have h : convert_units 0 "C" "F" "Temperature" = ConvResult.ok 32 := by
    simp [convert_units, temperature_units, round6]
    norm_num
  exact ⟨h, claim_c3_amended 0 "C" "F" 32 h⟩

/-- C4: for every linear category and every pair of units present in its
factor table, convert_units returns value times the factor of the target
unit divided by the factor of the source unit. -/
theorem claim_c4 (value : ℚ) (ut fu tu : String)
    (facs : List (String × ℚ)) (ff tf : ℚ)
    (hc : unit_conversions_linear ut = some facs)
    (hf : facs.lookup fu = some ff) (ht : facs.lookup tu = some tf) :
    convert_units value fu tu ut = ConvResult.ok (value * tf / ff) :=
  convert_units_linear_eq value fu tu ut facs ff tf hc hf ht

/-- Witness for C4: converting 2 m to feet in the Length category returns
2 times 0.3048 divided by 1. -/
theorem claim_c4_witness :
    convert_units 2 "m" "feet" "Length" = ConvResult.ok (2 * 0.3048 / 1) :=
  claim_c4 2 "Length" "m" "feet" length_factors 1 0.3048 rfl rfl rfl

/-- C5: in every linear category, converting x from one unit to another
and the result back returns x within a relative error of one in a
million; over exact rationals the round trip is in fact exact. -/
theorem claim_c5 (x : ℚ) (ut fu tu : String)
    (facs : List (String × ℚ)) (ff tf : ℚ)
    (hc : unit_conversions_linear ut = some facs)
    (hf : facs.lookup fu = some ff) (ht : facs.lookup tu = some tf) :
    ∃ y z, convert_units x fu tu ut = ConvResult.ok y ∧
      convert_units y tu fu ut = ConvResult.ok z ∧
      |z - x| ≤ |x| / 1000000 := by
  have hffpos : 0 < ff := factors_pos hc (fu, ff) (lookup_mem hf)
  have htfpos : 0 < tf := factors_pos hc (tu, tf) (lookup_mem ht)
  refine ⟨x * tf / ff, x * tf / ff * ff / tf,
    convert_units_linear_eq x fu tu ut facs ff tf hc hf ht,
    convert_units_linear_eq _ tu fu ut facs tf ff hc ht hf, ?_⟩
  have hx : x * tf / ff * ff / tf = x := by
    field_simp
  rw [hx, sub_self, abs_zero]
  positivity

/-- Witness for C5: a Joule to electronvolt round trip on the value 7. -/
theorem claim_c5_witness :
    ∃ y z, convert_units 7 "J" "eV" "Energy" = ConvResult.ok y ∧
      convert_units y "eV" "J" "Energy" = ConvResult.ok z ∧
      |z - 7| ≤ |(7 : ℚ)| / 1000000 :=
  claim_c5 7 "Energy" "J" "eV" energy_factors 1 1.60218e-19 rfl rfl rfl

/-- C6: register_user fails and leaves the store unchanged when the
username is already a key, whatever the password; otherwise it succeeds
and the persisted store gains exactly the entry with the password digest
and the user role. -/
theorem claim_c6 (hash_password : String → String) (users : Users)
    (username password : String) :
    ((users.lookup username).isSome = true →
      register_user hash_password users username password = (false, users)) ∧
    (users.lookup username = Option.none →
      register_user hash_password users username password =
        (true, users ++ [(username, ⟨hash_password password, "user"⟩)])) := by
  constructor
  · intro h
    rcases hl : users.lookup username with _ | u
    · rw [hl] at h
      exact absurd h (by simp)
    · simp [register_user, hl]
  · intro h
    simp [register_user, h]

/-- Witness for C6: registering alice into the empty store succeeds, and a
second registration under the same username fails regardless of the new
password. -/
theorem claim_c6_witness :
    register_user (fun s => s) [] "alice" "longpassword" =
      (true, [("alice", ⟨"longpassword", "user"⟩)]) ∧
    register_user (fun s => s) [("alice", ⟨"longpassword", "user"⟩)] "alice" "other" =
      (false, [("alice", ⟨"longpassword", "user"⟩)]) :=
  ⟨(claim_c6 (fun s => s) [] "alice" "longpassword").2 rfl,
   (claim_c6 (fun s => s) [("alice", ⟨"longpassword", "user"⟩)] "alice" "other").1 rfl⟩

/-- C7: authenticate_user returns the stored record exactly when the
username is a key of the store and the digest of the supplied password
equals the stored digest; it returns None exactly when the username is
absent or the digest mismatches. -/
theorem claim_c7 (hash_password : String → String) (users : Users)
    (username password : String) :
    (∀ user, authenticate_user hash_password users username password = some user ↔
      (users.lookup username = some user ∧ user.password = hash_password password)) ∧
    (authenticate_user hash_password users username password = Option.none ↔
      ∀ user, users.lookup username = some user →
        user.password ≠ hash_password password) := by
  rcases hl : users.lookup username with _ | u
  · constructor
    · intro user
      simp [authenticate_user, hl]
    · simp [authenticate_user, hl]
  · by_cases hp : u.password = hash_password password
    · constructor
      · intro user
        simp only [authenticate_user, hl, if_pos hp]
        constructor
        · intro h
          obtain rfl : u = user := by injection h
          exact ⟨rfl, hp⟩
        · rintro ⟨hlu, _⟩
          obtain rfl : u = user := by injection hlu
          rfl
      · simp only [authenticate_user, hl, if_pos hp]
        constructor
        · intro h
          exact Option.noConfusion h
        · intro h
          exact absurd hp (h u rfl)
    · constructor
      · intro user
        simp only [authenticate_user, hl, if_neg hp]
        constructor
        · intro h
          exact Option.noConfusion h
        · rintro ⟨hlu, hpu⟩
          obtain rfl : u = user := by injection hlu
          exact absurd hpu hp
      · simp only [authenticate_user, hl, if_neg hp]
        constructor
        · intro _ user hlu
          obtain rfl : u = user := by injection hlu
          exact hp
        · intro _
          trivial

/-- Witness for C7: with the identity digest, alice authenticates with the
registered password and is rejected with a wrong one. -/
theorem claim_c7_witness :
    authenticate_user (fun s => s) [("alice", ⟨"longpassword", "user"⟩)]
      "alice" "longpassword" = some ⟨"longpassword", "user"⟩ ∧
    authenticate_user (fun s => s) [("alice", ⟨"longpassword", "user"⟩)]
      "alice" "wrong" = Option.none := by
  constructor
  · exact ((claim_c7 (fun s => s) [("alice", ⟨"longpassword", "user"⟩)]
      "alice" "longpassword").1 ⟨"longpassword", "user"⟩).mpr ⟨rfl, rfl⟩
  · refine ((claim_c7 (fun s => s) [("alice", ⟨"longpassword", "user"⟩)]
      "alice" "wrong").2).mpr ?_
    intro user h
    obtain rfl : (⟨"longpassword", "user"⟩ : UserRec) = user := by injection h
    decide

/-- C8: loading either persisted store from a missing file or from a file
with invalid JSON yields the empty store and raises nothing. -/
theorem claim_c8 :
    load_users StoredFile.missing = [] ∧
    load_users StoredFile.invalidJson = [] ∧
    load_feedback StoredFile.missing = [] ∧
    load_feedback StoredFile.invalidJson = [] :=
  ⟨rfl, rfl, rfl, rfl⟩

/-- Inserting a record satisfying p with the stable descending insert
puts it in front of every other record satisfying p, provided p can only
hold for records whose rating does not exceed its rating. -/
theorem filter_orderedInsert_pos {p : FeedbackRecord → Bool} {a : FeedbackRecord}
    (hpa : p a = true) (hcompat : ∀ b, ¬ ratingGE a b → p b = false) :
    ∀ l : List FeedbackRecord,
      (l.orderedInsert ratingGE a).filter p = a :: l.filter p := by
  intro l
  induction l with
  | nil => simp [List.orderedInsert, hpa]
  | cons b l ih =>
    by_cases hab : ratingGE a b
    · simp [List.orderedInsert, hab, List.filter_cons, hpa]
    · have hpb : p b = false := hcompat b hab
      simp [List.orderedInsert, hab, List.filter_cons, hpb, ih]

/-- Inserting a record not satisfying p leaves the p-filtered list
unchanged. -/
theorem filter_orderedInsert_neg {p : FeedbackRecord → Bool} {a : FeedbackRecord}
    (hpa : p a = false) :
    ∀ l : List FeedbackRecord,
      (l.orderedInsert ratingGE a).filter p = l.filter p := by
  intro l
  induction l with
  | nil => simp [List.orderedInsert, hpa]
  | cons b l ih =>
    by_cases hab : ratingGE a b
    · simp [List.orderedInsert, hab, List.filter_cons, hpa]
    · simp [List.orderedInsert, hab, List.filter_cons, ih]

/-- Stability of the descending insertion sort: filtering by any predicate
that is specific to one rating value commutes with sorting, so records of
equal rating keep their relative order. -/
theorem filter_insertionSort {p : FeedbackRecord → Bool}
    (hcompat : ∀ a, p a = true → ∀ b, ¬ ratingGE a b → p b = false) :
    ∀ l : List FeedbackRecord,
      (l.insertionSort ratingGE).filter p = l.filter p := by
  intro l
  induction l with
  | nil => rfl
  | cons a l ih =>
    rcases hpa : p a with _ | _
    · rw [List.insertionSort, filter_orderedInsert_neg hpa, ih, List.filter_cons, hpa]
      simp
    · rw [List.insertionSort, filter_orderedInsert_pos hpa (hcompat a hpa), ih,
        List.filter_cons, hpa]
      simp

/-- C9: the Highest Rating listing returns exactly the visible records of
rating at least min_rating (a permutation of the order-preserving filter),
sorted by descending rating, and for each rating value the records of
that rating appear in the same relative order as in the filtered input,
that is, in submission order. -/
theorem claim_c9 (min_rating : Int) (feedbacks : List FeedbackRecord) :
    (review_highest_rating min_rating feedbacks).Perm
      (review_filter min_rating feedbacks) ∧
    (review_highest_rating min_rating feedbacks).Pairwise ratingGE ∧
    ∀ r : Int,
      (review_highest_rating min_rating feedbacks).filter (fun f => f.rating == r) =
        (review_filter min_rating feedbacks).filter (fun f => f.rating == r) := by
  refine ⟨List.perm_insertionSort _ _, List.sorted_insertionSort _ _, ?_⟩
  intro r
  apply filter_insertionSort
  intro a ha b hb
  have ha2 : a.rating = r := by simpa using ha
  have hlt : a.rating < b.rating := lt_of_not_le hb
  have hne : b.rating ≠ r := by omega
  simpa using hne

/-- Witness for C9: the permutation clause evaluated on a two-record
store. -/
theorem claim_c9_witness :
    (review_highest_rating 3
      [⟨"a", "u1", "f1", 4, 0, 0, "t1", some true⟩,
       ⟨"b", "u2", "f2", 5, 0, 0, "t2", some true⟩]).Perm
      (review_filter 3
        [⟨"a", "u1", "f1", 4, 0, 0, "t1", some true⟩,
         ⟨"b", "u2", "f2", 5, 0, 0, "t2", some true⟩]) :=
  (claim_c9 3 _).1

/-- C10: the core register_user accepts the empty password for any fresh
username; the eight-character minimum is enforced only by the REGISTER
branch of login_section before register_user is called. -/
theorem claim_c10 (hash_password : String → String) (users : Users) (username : String)
    (h : users.lookup username = Option.none) :
    (register_user hash_password users username "").1 = true ∧
    ∀ password, password.length < 8 →
      login_register hash_password users username password =
        (RegisterOutcome.passwordTooShort, users) := by
  constructor
  · simp [register_user, h]
  · intro password hlen
    have hlt : ¬ 8 ≤ password.length := by omega
    simp [login_register, hlt]

/-- Witness for C10: the empty store accepts alice with an empty password
at the core boundary, while the presentation layer rejects a five-letter
password before reaching the core. -/
theorem claim_c10_witness :
    (register_user (fun s => s) [] "alice" "").1 = true ∧
    login_register (fun s => s) [] "alice" "short" =
      (RegisterOutcome.passwordTooShort, []) :=
  ⟨(claim_c10 (fun s => s) [] "alice" rfl).1,
   (claim_c10 (fun s => s) [] "alice" rfl).2 "short" (by decide)⟩

end Conventor
